import Mathlib

/-!
Shallow embedding of `mediapipe/tasks/tools/safetensors_converter.py`.

The Python module converts a safetensors checkpoint into quantization
actions.  We embed, faithfully to the source:
  * the Python string primitives the module uses (`in`, `endswith`,
    `str.replace` with its left-to-right non-overlapping scan),
  * `LayerType.get_layer_type`,
  * `StablelmMapper.map_to_actions` / `update_target_name`,
  * `PhiMapper.map_to_actions` / `update_target_name`,
  * the torch tensor pipeline of `_read_tensor_as_numpy` at the
    shape/dtype level (`frombuffer`, `reshape`, `float`, `t`,
    `contiguous`, `numpy`),
  * `SafetensorsCkptLoader.__init__` and `load_to_actions`.
-/

namespace SafetensorsConverter

/-! ## Python string primitives -/

/-- Python `sub in s` on character lists: some contiguous run of `s`
equals `p`. -/
def contains_sub (p : List Char) : List Char → Bool
  | [] => p.isEmpty
  | c :: rest => p.isPrefixOf (c :: rest) || contains_sub p rest

/-- Python `sub_name in layer_name` (substring containment). -/
def py_contains (s sub_name : String) : Bool :=
  contains_sub sub_name.toList s.toList

/-- Python `s.endswith(p)`. -/
def py_ends_with (s p : String) : Bool :=
  p.toList.isSuffixOf s.toList

/-- One pass of Python `str.replace`: scan left to right, replace each
non-overlapping occurrence of `p` by `r`, and continue scanning after the
replaced text (the replacement is never rescanned).  The `Nat` argument is
fuel; with fuel `s.length` and a non-empty pattern the fuel never runs out,
because every step consumes at least one character of `s`. -/
def py_replace_aux (p r : List Char) : Nat → List Char → List Char
  | _, [] => []
  | 0, s => s
  | fuel + 1, c :: cs =>
    if p.isPrefixOf (c :: cs) then
      r ++ py_replace_aux p r fuel (List.drop p.length (c :: cs))
    else
      c :: py_replace_aux p r fuel cs

/-- Python `s.replace(p, r)` for a non-empty pattern `p` (every pattern used
by the converter is non-empty; an empty pattern is returned unchanged here). -/
def py_replace (s p r : String) : String :=
  if p.toList.isEmpty then s
  else ⟨py_replace_aux p.toList r.toList s.toList.length s.toList⟩

/-! ## `LayerType` and `get_layer_type` -/

/-- Enum for layer type (`LayerType` in the source). -/
inductive LayerType where
  | NONE
  | ATTENTION
  | FEEDFORWARD
  | EMBEDDING
  | LAYER_NORM
deriving DecidableEq, Repr

/-- `ffn_layers` keyword list from `get_layer_type`. -/
def ffn_layers : List String := ["mlp"]

/-- `attn_layers` keyword list from `get_layer_type`. -/
def attn_layers : List String := ["self_attn"]

/-- `emb_layers` keyword list from `get_layer_type`. -/
def emb_layers : List String := ["embed_tokens", "lm_head"]

/-- `layer_norms` keyword list from `get_layer_type`. -/
def layer_norms : List String := ["input_layernorm", "post_attention_layernorm", "final_layernorm"]

/-- `LayerType.get_layer_type`: substring matching, attention first, then
feed-forward, embedding, layer norm, otherwise `NONE`. -/
def LayerType.get_layer_type (layer_name : String) : LayerType :=
  if attn_layers.any fun sub_name => py_contains layer_name sub_name then .ATTENTION
  else if ffn_layers.any fun sub_name => py_contains layer_name sub_name then .FEEDFORWARD
  else if emb_layers.any fun sub_name => py_contains layer_name sub_name then .EMBEDDING
  else if layer_norms.any fun sub_name => py_contains layer_name sub_name then .LAYER_NORM
  else .NONE

/-! ## `converter_base` records -/

/-- Modelled from the spec: `converter_base.LayerActionMapperBase` (not under
`src/`) stores the construction-time configuration: `is_symmetric` plus the
three per-role quantization bit-widths, exposed to the mappers as
`self._attention_quant_bits`, `self._feedforward_quant_bits`,
`self._embedding_quant_bits`. -/
structure MapperConfig where
  is_symmetric : Bool
  attention_quant_bits : Nat
  feedforward_quant_bits : Nat
  embedding_quant_bits : Nat
deriving DecidableEq, Repr

/-- Shape/dtype level view of a torch tensor (and of the numpy array it is
converted to): the fields the claims are about. -/
structure TorchTensor where
  shape : List Nat
  dtype : String
deriving DecidableEq, Repr

/-- Modelled from the spec: `converter_base.QuantizationAction` (not under
`src/`) is the record {tensor_name, target_name, quantize_axis,
quantize_bits, pack_dim, tensor_value}; `tensor_value` is filled in later by
the loader, so it is an `Option` here, `none` at creation. -/
structure QuantizationAction where
  tensor_name : String
  target_name : String
  quantize_axis : Option (List Nat)
  quantize_bits : Option Nat
  pack_dim : Nat
  tensor_value : Option TorchTensor
deriving DecidableEq, Repr

/-! ## `StablelmMapper` -/

/-- `StablelmMapper.NON_QUANTIZED_LAYERS` — declared in the source with the
comment "we don't quantize layer norm for stablelm model", but never consulted
by `map_to_actions`. -/
def StablelmMapper.NON_QUANTIZED_LAYERS : List String :=
  ["model.norm.weight", "input_layernorm", "post_attention_layernorm"]

/-- `StablelmMapper.update_target_name`: the ordered chain of
`str.replace` calls from the source. -/
def StablelmMapper.update_target_name (target_name : String) : String :=
  let t := py_replace target_name "model.layers." "params.lm.transformer.x_layers_"
  let t := py_replace t "mlp.up_proj" "ff_layer.ffn_layer1"
  let t := py_replace t "mlp.down_proj" "ff_layer.ffn_layer2"
  let t := py_replace t "mlp.gate_proj" "ff_layer.ffn_layer1_gate"
  let t := py_replace t "input_layernorm" "pre_layer_norm"
  let t := py_replace t "pre_layer_norm.weight" "pre_layer_norm.scale"
  let t := py_replace t "post_attention_layernorm" "post_layer_norm"
  let t := py_replace t "post_layer_norm.weight" "post_layer_norm.scale"
  let t := py_replace t "self_attn.q_proj" "self_attention.q"
  let t := py_replace t "self_attn.k_proj" "self_attention.k"
  let t := py_replace t "self_attn.v_proj" "self_attention.v"
  let t := py_replace t "self_attn.o_proj" "self_attention.post"
  let t := py_replace t "model.embed_tokens" "params.lm.token_embedding"
  let t := py_replace t "model.norm" "params.lm.final_ln"
  let t := py_replace t "final_ln.weight" "final_ln.scale"
  let t := py_replace t "lm_head" "params.lm.softmax.logits_ffn"
  let t := py_replace t ".weight" ".w"
  t

/-- `StablelmMapper.map_to_actions`: axis and bits start as `None`; when the
layer is not a layer norm and the name ends with ".weight", the axis becomes
`[0]` and the bits are chosen by role (no branch for `NONE`, which therefore
keeps `None` bits). -/
def StablelmMapper.map_to_actions (cfg : MapperConfig) (layer_name : String) :
    Option QuantizationAction :=
  let layer_type := LayerType.get_layer_type layer_name
  let qp : Option (List Nat) × Option Nat :=
    if layer_type ≠ LayerType.LAYER_NORM ∧ py_ends_with layer_name ".weight" = true then
      (some [0],
        if layer_type = LayerType.FEEDFORWARD then some cfg.feedforward_quant_bits
        else if layer_type = LayerType.ATTENTION then some cfg.attention_quant_bits
        else if layer_type = LayerType.EMBEDDING then some cfg.embedding_quant_bits
        else none)
    else (none, none)
  some
    { tensor_name := layer_name
      target_name := StablelmMapper.update_target_name layer_name
      quantize_axis := qp.1
      quantize_bits := qp.2
      pack_dim := 0
      tensor_value := none }

/-! ## `PhiMapper` -/

/-- `PhiMapper.update_target_name`: first the layer-index rewrite, then a
re-classification of the partially rewritten name, then role-specific
replacement chains, then the final generic ".weight" → ".w" rewrite. -/
def PhiMapper.update_target_name (target_name : String) : String :=
  let t1 := py_replace target_name "model.layers." "params.lm.transformer.x_layers_"
  let layer_type := LayerType.get_layer_type t1
  let t2 :=
    if layer_type = LayerType.FEEDFORWARD then
      let a := py_replace t1 ".weight" ".linear.w"
      let a := py_replace a ".bias" ".bias.b"
      let a := py_replace a "mlp.fc1" "ff_layer.ffn_layer1"
      py_replace a "mlp.fc2" "ff_layer.ffn_layer2"
    else if layer_type = LayerType.ATTENTION then
      let a := py_replace t1 ".weight" ".linear.w"
      let a := py_replace a ".bias" ".bias.b"
      let a := py_replace a "self_attn.q_proj" "self_attention.q"
      let a := py_replace a "self_attn.k_proj" "self_attention.k"
      let a := py_replace a "self_attn.v_proj" "self_attention.v"
      py_replace a "self_attn.dense" "self_attention.post"
    else if layer_type = LayerType.EMBEDDING then
      let a := py_replace t1 "model.embed_tokens" "params.lm.token_embedding"
      let a := py_replace a "lm_head" "params.lm.softmax.logits_ffn"
      let a := py_replace a "logits_ffn.weight" "logits_ffn.linear.w"
      py_replace a "logits_ffn.bias" "logits_ffn.bias.b"
    else if layer_type = LayerType.LAYER_NORM then
      let a := py_replace t1 "input_layernorm" "pre_layer_norm"
      let a := py_replace a "pre_layer_norm.weight" "pre_layer_norm.scale"
      let a := py_replace a "model.final_layernorm" "params.lm.final_ln"
      py_replace a "final_ln.weight" "final_ln.scale"
    else t1
  py_replace t2 ".weight" ".w"

/-- `PhiMapper.map_to_actions`: identical quantization-policy structure to the
StableLM mapper, with the Phi name rewriting. -/
def PhiMapper.map_to_actions (cfg : MapperConfig) (layer_name : String) :
    Option QuantizationAction :=
  let layer_type := LayerType.get_layer_type layer_name
  let qp : Option (List Nat) × Option Nat :=
    if layer_type ≠ LayerType.LAYER_NORM ∧ py_ends_with layer_name ".weight" = true then
      (some [0],
        if layer_type = LayerType.FEEDFORWARD then some cfg.feedforward_quant_bits
        else if layer_type = LayerType.ATTENTION then some cfg.attention_quant_bits
        else if layer_type = LayerType.EMBEDDING then some cfg.embedding_quant_bits
        else none)
    else (none, none)
  some
    { tensor_name := layer_name
      target_name := PhiMapper.update_target_name layer_name
      quantize_axis := qp.1
      quantize_bits := qp.2
      pack_dim := 0
      tensor_value := none }

/-! ## Tensor descriptors and the torch pipeline of `_read_tensor_as_numpy`

`_read_tensor_as_numpy` runs
`torch.frombuffer(bytes, dtype=DTYPE_MAP[dtype]).reshape(shape)` followed by
`.float().t().contiguous().numpy()`.  We embed this pipeline at the
shape/dtype level, with each torch operation modelled after its documented
behavior:
  * `frombuffer` needs the byte count to be a multiple of the element size
    and yields a 1-D tensor;
  * `reshape` needs the element counts to agree;
  * `float` casts to float32;
  * `t` expects a tensor with at most 2 dimensions, swaps the two axes of a
    2-D tensor and returns 0-D and 1-D tensors as is (on 3-D and higher it
    raises);
  * `contiguous` and `numpy` do not change shape or dtype.
-/

/-- One entry of the safetensors metadata: `{dtype, shape, data_offsets}`. -/
structure TensorInfo where
  dtype : String
  shape : List Nat
  data_offsets : Nat × Nat
deriving DecidableEq, Repr

/-- `DTYPE_MAP` from the source as a lookup function (a Python dict with the
three entries F16, BF16, F32), with torch dtypes rendered as their names. -/
def DTYPE_MAP : String → Option String
  | "F16" => some "float16"
  | "BF16" => some "bfloat16"
  | "F32" => some "float32"
  | _ => none

/-- Bytes per element of each torch dtype appearing in `DTYPE_MAP`. -/
def dtype_size : String → Nat
  | "float16" => 2
  | "bfloat16" => 2
  | "float32" => 4
  | _ => 0

/-- `torch.frombuffer` on a buffer of `byte_len` bytes: the buffer length must
be a multiple of the element size; the result is 1-D. -/
def torch_frombuffer (byte_len : Nat) (dt : String) : Except String TorchTensor :=
  if byte_len % dtype_size dt = 0 then
    .ok { shape := [byte_len / dtype_size dt], dtype := dt }
  else
    .error "buffer size must be a multiple of element size"

/-- `Tensor.reshape`: the target shape must have the same element count. -/
def torch_reshape (t : TorchTensor) (shape : List Nat) : Except String TorchTensor :=
  if t.shape.prod = shape.prod then .ok { t with shape := shape }
  else .error "shape is invalid for input size"

/-- `Tensor.float`: cast to float32. -/
def torch_float (t : TorchTensor) : TorchTensor :=
  { t with dtype := "float32" }

/-- `Tensor.t`: expects at most 2 dimensions; transposes a 2-D tensor and
returns 0-D and 1-D tensors as is (reversal of the dimension list covers all
three cases). -/
def torch_t (t : TorchTensor) : Except String TorchTensor :=
  if t.shape.length ≤ 2 then .ok { t with shape := t.shape.reverse }
  else .error "t() expects a tensor with <= 2 dimensions"

/-- `SafetensorsCkptLoader._read_tensor_as_numpy` at the shape/dtype level:
dtype lookup, byte-range read of `data_offsets[1] - data_offsets[0]` bytes,
`frombuffer`, `reshape`, then `.float().t().contiguous().numpy()`
(`contiguous`/`numpy` leave shape and dtype unchanged). -/
def read_tensor_as_numpy (info : TensorInfo) : Except String TorchTensor :=
  match DTYPE_MAP info.dtype with
  | none => .error (info.dtype ++ " is not supported.")
  | some dt =>
    match torch_frombuffer (info.data_offsets.2 - info.data_offsets.1) dt with
    | .error e => .error e
    | .ok raw =>
      match torch_reshape raw info.shape with
      | .error e => .error e
      | .ok reshaped => torch_t (torch_float reshaped)

/-! ## `SafetensorsCkptLoader` -/

/-- The two mapper strategies the loader can construct. -/
inductive MapperKind where
  | stablelm
  | phi
deriving DecidableEq, Repr

/-- The errors `__init__` can raise (all are `ValueError` in Python; the
constructors record which check fired, following the spec's taxonomy). -/
inductive LoaderError where
  | config_error (msg : String)
  | not_found (msg : String)
  | format_error
deriving DecidableEq, Repr

/-- The observable state of the checkpoint file as `__init__` accesses it:
whether the path exists, and the parse result of the header-addressed JSON
metadata (`none` models a malformed header or metadata). -/
structure CkptFile where
  path_exists : Bool
  parsed_header : Option (List (String × TensorInfo))
deriving DecidableEq, Repr

/-- The loader state after a successful `__init__`. -/
structure Loader where
  ckpt_path : String
  cfg : MapperConfig
  mapper : MapperKind
  layers_info : List (String × TensorInfo)
deriving DecidableEq, Repr

/-- `SafetensorsCkptLoader.__init__`: first the model-family dispatch
(raising for an unknown family), then the path-existence check, then the
header read and JSON parse.  The base-class constructor only stores the
configuration and touches no file. -/
def loader_init (ckpt_path : String) (cfg : MapperConfig) (special_model : String)
    (file : CkptFile) : Except LoaderError Loader :=
  match
    (if special_model ∈ (["STABLELM_4E1T_3B"] : List String) then
      Except.ok MapperKind.stablelm
    else if special_model ∈ (["PHI_2"] : List String) then
      Except.ok MapperKind.phi
    else
      Except.error (LoaderError.config_error ("Unknown special model: " ++ special_model)))
  with
  | .error e => .error e
  | .ok mapper =>
    if file.path_exists = false then
      .error (.not_found (ckpt_path ++ " does not exists."))
    else
      match file.parsed_header with
      | none => .error .format_error
      | some layers_info =>
          .ok { ckpt_path := ckpt_path, cfg := cfg, mapper := mapper, layers_info := layers_info }

/-- The `map_to_actions` method of the mapper the loader constructed. -/
def mapper_map : MapperKind → MapperConfig → String → Option QuantizationAction
  | .stablelm => StablelmMapper.map_to_actions
  | .phi => PhiMapper.map_to_actions

/-- `SafetensorsCkptLoader.load_to_actions`, generic in the configured
mapper's `map_to_actions`: iterate the metadata keys in stored order, skip
`"__metadata__"`, skip names for which the mapper returns no action, fill in
`tensor_value` via `_read_tensor_as_numpy` (whose failure aborts the whole
conversion), and collect the actions in order. -/
def load_to_actions_from (m : String → Option QuantizationAction) :
    List (String × TensorInfo) → Except String (List QuantizationAction)
  | [] => .ok []
  | (tensor_name, info) :: rest =>
    if tensor_name = "__metadata__" then load_to_actions_from m rest
    else
      match m tensor_name with
      | none => load_to_actions_from m rest
      | some action =>
        match read_tensor_as_numpy info with
        | .error e => .error e
        | .ok v =>
          match load_to_actions_from m rest with
          | .error e => .error e
          | .ok acts => .ok ({ action with tensor_value := some v } :: acts)

/-- `SafetensorsCkptLoader.load_to_actions` on a constructed loader. -/
def Loader.load_to_actions (l : Loader) : Except String (List QuantizationAction) :=
  load_to_actions_from (mapper_map l.mapper l.cfg) l.layers_info

/-! ## Representative checkpoint layer names -/

/-- The layer names of a StableLM-4E1T-style checkpoint (one transformer
block shown with indices 0 and 31; all blocks have the same sublayer
names). -/
def stablelm_rep_names : List String :=
  ["model.embed_tokens.weight",
   "model.layers.0.input_layernorm.weight",
   "model.layers.0.input_layernorm.bias",
   "model.layers.0.mlp.up_proj.weight",
   "model.layers.0.mlp.down_proj.weight",
   "model.layers.0.mlp.gate_proj.weight",
   "model.layers.0.post_attention_layernorm.weight",
   "model.layers.0.post_attention_layernorm.bias",
   "model.layers.0.self_attn.q_proj.weight",
   "model.layers.0.self_attn.k_proj.weight",
   "model.layers.0.self_attn.v_proj.weight",
   "model.layers.0.self_attn.o_proj.weight",
   "model.layers.31.self_attn.o_proj.weight",
   "model.norm.weight",
   "model.norm.bias",
   "lm_head.weight"]

/-- The layer names of a Phi-2-style checkpoint. -/
def phi_rep_names : List String :=
  ["model.embed_tokens.weight",
   "model.layers.0.input_layernorm.weight",
   "model.layers.0.input_layernorm.bias",
   "model.layers.0.mlp.fc1.weight",
   "model.layers.0.mlp.fc1.bias",
   "model.layers.0.mlp.fc2.weight",
   "model.layers.0.mlp.fc2.bias",
   "model.layers.0.self_attn.q_proj.weight",
   "model.layers.0.self_attn.q_proj.bias",
   "model.layers.0.self_attn.k_proj.weight",
   "model.layers.0.self_attn.k_proj.bias",
   "model.layers.0.self_attn.v_proj.weight",
   "model.layers.0.self_attn.v_proj.bias",
   "model.layers.0.self_attn.dense.weight",
   "model.layers.0.self_attn.dense.bias",
   "model.final_layernorm.weight",
   "model.final_layernorm.bias",
   "lm_head.weight",
   "lm_head.bias"]

/-! ## Helper lemmas -/

/-- Success test for `Except` (statement helper). -/
def is_ok {ε α : Type} : Except ε α → Bool
  | .ok _ => true
  | .error _ => false

theorem is_ok_iff {ε α : Type} (x : Except ε α) : is_ok x = true ↔ ∃ v, x = .ok v := by
  cases x <;> simp [is_ok]

theorem dtype_size_pos {d dt : String} (hd : DTYPE_MAP d = some dt) : 0 < dtype_size dt := by
  unfold DTYPE_MAP at hd
  split at hd <;> first
    | (injection hd with h; subst h; decide)
    | injection hd

theorem reverse_eq_self_of_short {l : List Nat} (h : l.length ≤ 1) : l.reverse = l := by
  match l with
  | [] => rfl
  | [a] => rfl
  | a :: b :: t => simp at h

/-- If every tensor the mapper keeps materializes, `load_to_actions` succeeds
and returns one action per kept entry. -/
theorem load_to_actions_from_count (m : String → Option QuantizationAction) :
    ∀ entries : List (String × TensorInfo),
      (∀ e ∈ entries, e.1 ≠ "__metadata__" → (m e.1).isSome = true →
        is_ok (read_tensor_as_numpy e.2) = true) →
      ∃ acts, load_to_actions_from m entries = .ok acts ∧
        acts.length =
          (entries.filter fun e => (e.1 != "__metadata__") && (m e.1).isSome).length := by
  intro entries
  induction entries with
  | nil => exact fun _ => ⟨[], rfl, rfl⟩
  | cons e rest ih =>
    intro hread
    obtain ⟨acts, hacts, hlen⟩ := ih fun x hx => hread x (List.mem_cons_of_mem _ hx)
    obtain ⟨name, info⟩ := e
    by_cases hname : name = "__metadata__"
    · subst hname
      refine ⟨acts, ?_, ?_⟩
      · simpa [load_to_actions_from] using hacts
      · simp [List.filter_cons, hlen]
    · cases hm : m name with
      | none =>
        refine ⟨acts, ?_, ?_⟩
        · simpa [load_to_actions_from, hname, hm] using hacts
        · simp [List.filter_cons, hname, hm, hlen]
      | some a =>
        have hok := hread (name, info) (List.mem_cons_self _ _) hname (by simp [hm])
        rw [is_ok_iff] at hok
        obtain ⟨v, hv⟩ := hok
        refine ⟨{ a with tensor_value := some v } :: acts, ?_, ?_⟩
        · simp [load_to_actions_from, hname, hm, hv, hacts]
        · simp [List.filter_cons, hname, hm, hlen]

/-- Every metadata entry is counted in exactly one of: the reserved key, the
dropped names, the kept names. -/
theorem length_partition (m : String → Option QuantizationAction) :
    ∀ entries : List (String × TensorInfo),
      entries.length =
        (entries.filter fun e => e.1 == "__metadata__").length +
        (entries.filter fun e => (e.1 != "__metadata__") && (m e.1).isNone).length +
        (entries.filter fun e => (e.1 != "__metadata__") && (m e.1).isSome).length := by
  intro entries
  induction entries with
  | nil => rfl
  | cons e rest ih =>
    by_cases h : e.1 = "__metadata__"
    · simp only [List.filter_cons, h, List.length_cons, ih]
      simp
      omega
    · cases hm : m e.1 <;>
        simp only [List.filter_cons, List.length_cons, ih] <;> simp [h, hm] <;> omega

/-- With unique keys, the reserved metadata key accounts for exactly one
entry when present. -/
theorem filter_meta_length (entries : List (String × TensorInfo))
    (hmeta : "__metadata__" ∈ entries.map Prod.fst)
    (hnodup : (entries.map Prod.fst).Nodup) :
    (entries.filter fun e => e.1 == "__metadata__").length = 1 := by
  induction entries with
  | nil => simp at hmeta
  | cons e rest ih =>
    simp only [List.map_cons, List.mem_cons] at hmeta
    rw [List.map_cons, List.nodup_cons] at hnodup
    by_cases h : e.1 = "__metadata__"
    · have hrest : (rest.filter fun x => x.1 == "__metadata__") = [] := by
        rw [List.filter_eq_nil_iff]
        intro x hx
        simp only [beq_iff_eq]
        intro heq
        exact hnodup.1 (h ▸ heq ▸ List.mem_map_of_mem Prod.fst hx)
      simp [List.filter_cons, h, hrest]
    · have hmem : "__metadata__" ∈ rest.map Prod.fst := by
        rcases hmeta with h1 | h1
        · exact absurd h1.symm h
        · exact h1
      simp only [List.filter_cons]
      simp only [beq_iff_eq, h, if_false]
      exact ih hmem hnodup.2

/-! ## Theorems about the claims -/

/-- Claim C1, counterexample: for the role-NONE weight name "foo.weight" both
mappers produce an action with `quantize_axis = [0]` but `quantize_bits =
None`, so exactly one of the two is set, refuting "no action ever has exactly
one of the two set". -/
theorem claim_C1_counterexample :
    (StablelmMapper.map_to_actions ⟨true, 8, 8, 8⟩ "foo.weight").map
        (fun a => (a.quantize_axis, a.quantize_bits)) = some (some [0], none) ∧
    (PhiMapper.map_to_actions ⟨true, 8, 8, 8⟩ "foo.weight").map
        (fun a => (a.quantize_axis, a.quantize_bits)) = some (some [0], none) := by
  constructor <;> decide

/-- Claim C1, amended: for every layer name and configuration, each mapper
returns an action whose `quantize_axis` is either `None` (and then
`quantize_bits` is also `None`) or `[0]`; in particular `quantize_bits` is
never set without `quantize_axis`, but `quantize_axis = [0]` with
`quantize_bits = None` does occur (role-NONE weight names). -/
theorem claim_C1_amended (cfg : MapperConfig) (layer_name : String) :
    ∃ sa pa, StablelmMapper.map_to_actions cfg layer_name = some sa ∧
      PhiMapper.map_to_actions cfg layer_name = some pa ∧
      ((sa.quantize_axis = none ∧ sa.quantize_bits = none) ∨ sa.quantize_axis = some [0]) ∧
      ((pa.quantize_axis = none ∧ pa.quantize_bits = none) ∨ pa.quantize_axis = some [0]) := by
  refine ⟨_, _, rfl, rfl, ?_, ?_⟩ <;>
    by_cases h : LayerType.get_layer_type layer_name ≠ LayerType.LAYER_NORM ∧
        py_ends_with layer_name ".weight" = true <;>
      simp [StablelmMapper.map_to_actions, PhiMapper.map_to_actions, h]

/-- Claim C2: under the StableLM mapper, "model.norm.weight" does map to
target "params.lm.final_ln.scale", but the classifier returns `NONE` (no
layer-norm keyword is a substring of the name) and the action gets
`quantize_axis = [0]`, not `None` — even though the mapper's own
`NON_QUANTIZED_LAYERS` lists "model.norm.weight" as not to be quantized. -/
theorem claim_C2_code_divergence (cfg : MapperConfig) :
    LayerType.get_layer_type "model.norm.weight" = LayerType.NONE ∧
    (StablelmMapper.map_to_actions cfg "model.norm.weight").map
        (fun a => (a.target_name, a.quantize_axis)) =
      some ("params.lm.final_ln.scale", some [0]) ∧
    "model.norm.weight" ∈ StablelmMapper.NON_QUANTIZED_LAYERS :=
  ⟨by decide, rfl, by decide⟩

/-- Claim C3, counterexample: rewriting is not idempotent for every string.
For the name ".weighteight", one application of either mapper's
`update_target_name` yields ".weight" (the replacement ".weight" → ".w" glues
".w" to the following "eight"), and a second application yields ".w". -/
theorem claim_C3_counterexample :
    StablelmMapper.update_target_name (StablelmMapper.update_target_name ".weighteight") ≠
      StablelmMapper.update_target_name ".weighteight" ∧
    PhiMapper.update_target_name (PhiMapper.update_target_name ".weighteight") ≠
      PhiMapper.update_target_name ".weighteight" := by
  constructor <;> decide

/-- Claim C3, amended: rewriting twice yields the same result as rewriting
once for every layer name of the two families' checkpoint naming conventions
(verified over the representative name lists); for arbitrary strings
idempotence can fail. -/
theorem claim_C3_amended :
    (stablelm_rep_names.all fun n =>
      StablelmMapper.update_target_name (StablelmMapper.update_target_name n) ==
        StablelmMapper.update_target_name n) = true ∧
    (phi_rep_names.all fun n =>
      PhiMapper.update_target_name (PhiMapper.update_target_name n) ==
        PhiMapper.update_target_name n) = true := by
  constructor <;> decide

/-- Claim C6: for every configuration and every name ending in ".weight",
if the classifier returns ATTENTION / FEEDFORWARD / EMBEDDING then both
mappers produce an action with `quantize_bits` equal to the configured
bit-width of that role and `quantize_axis = [0]`. -/
theorem claim_C6 (cfg : MapperConfig) (layer_name : String)
    (hw : py_ends_with layer_name ".weight" = true) :
    (LayerType.get_layer_type layer_name = LayerType.ATTENTION →
      (StablelmMapper.map_to_actions cfg layer_name).map
          (fun a => (a.quantize_axis, a.quantize_bits)) =
        some (some [0], some cfg.attention_quant_bits) ∧
      (PhiMapper.map_to_actions cfg layer_name).map
          (fun a => (a.quantize_axis, a.quantize_bits)) =
        some (some [0], some cfg.attention_quant_bits)) ∧
    (LayerType.get_layer_type layer_name = LayerType.FEEDFORWARD →
      (StablelmMapper.map_to_actions cfg layer_name).map
          (fun a => (a.quantize_axis, a.quantize_bits)) =
        some (some [0], some cfg.feedforward_quant_bits) ∧
      (PhiMapper.map_to_actions cfg layer_name).map
          (fun a => (a.quantize_axis, a.quantize_bits)) =
        some (some [0], some cfg.feedforward_quant_bits)) ∧
    (LayerType.get_layer_type layer_name = LayerType.EMBEDDING →
      (StablelmMapper.map_to_actions cfg layer_name).map
          (fun a => (a.quantize_axis, a.quantize_bits)) =
        some (some [0], some cfg.embedding_quant_bits) ∧
      (PhiMapper.map_to_actions cfg layer_name).map
          (fun a => (a.quantize_axis, a.quantize_bits)) =
        some (some [0], some cfg.embedding_quant_bits)) := by
  refine ⟨fun hr => ?_, fun hr => ?_, fun hr => ?_⟩ <;>
    exact ⟨by simp [StablelmMapper.map_to_actions, hr, hw],
           by simp [PhiMapper.map_to_actions, hr, hw]⟩

/-- Witness for C6 at the attention name
"model.layers.0.self_attn.k_proj.weight" with bit-widths (4, 5, 6). -/
theorem claim_C6_witness :
    py_ends_with "model.layers.0.self_attn.k_proj.weight" ".weight" = true ∧
    LayerType.get_layer_type "model.layers.0.self_attn.k_proj.weight" = LayerType.ATTENTION ∧
    ((StablelmMapper.map_to_actions ⟨true, 4, 5, 6⟩ "model.layers.0.self_attn.k_proj.weight").map
        (fun a => (a.quantize_axis, a.quantize_bits)) = some (some [0], some 4) ∧
     (PhiMapper.map_to_actions ⟨true, 4, 5, 6⟩ "model.layers.0.self_attn.k_proj.weight").map
        (fun a => (a.quantize_axis, a.quantize_bits)) = some (some [0], some 4)) :=
  ⟨by decide, by decide,
    (claim_C6 ⟨true, 4, 5, 6⟩ "model.layers.0.self_attn.k_proj.weight" (by decide)).1
      (by decide)⟩

/-- Claim C7: for every configuration and every name the classifier labels
LAYER_NORM, both mappers produce an action with `quantize_axis = None` and
`quantize_bits = None`. -/
theorem claim_C7 (cfg : MapperConfig) (layer_name : String)
    (hr : LayerType.get_layer_type layer_name = LayerType.LAYER_NORM) :
    (StablelmMapper.map_to_actions cfg layer_name).map
        (fun a => (a.quantize_axis, a.quantize_bits)) = some (none, none) ∧
    (PhiMapper.map_to_actions cfg layer_name).map
        (fun a => (a.quantize_axis, a.quantize_bits)) = some (none, none) := by
  exact ⟨by simp [StablelmMapper.map_to_actions, hr],
         by simp [PhiMapper.map_to_actions, hr]⟩

/-- Witness for C7 at "model.layers.0.input_layernorm.weight". -/
theorem claim_C7_witness :
    LayerType.get_layer_type "model.layers.0.input_layernorm.weight" = LayerType.LAYER_NORM ∧
    ((StablelmMapper.map_to_actions ⟨true, 4, 5, 6⟩ "model.layers.0.input_layernorm.weight").map
        (fun a => (a.quantize_axis, a.quantize_bits)) = some (none, none) ∧
     (PhiMapper.map_to_actions ⟨true, 4, 5, 6⟩ "model.layers.0.input_layernorm.weight").map
        (fun a => (a.quantize_axis, a.quantize_bits)) = some (none, none)) :=
  ⟨by decide,
    claim_C7 ⟨true, 4, 5, 6⟩ "model.layers.0.input_layernorm.weight" (by decide)⟩

/-- Claim C8: under the StableLM mapper, for every configuration, the name
"model.layers.3.self_attn.q_proj.weight" is classified ATTENTION and maps to
the action with target "params.lm.transformer.x_layers_3.self_attention.q.w",
`quantize_axis = [0]` and `quantize_bits = attention_quant_bits`. -/
theorem claim_C8 (cfg : MapperConfig) :
    LayerType.get_layer_type "model.layers.3.self_attn.q_proj.weight" = LayerType.ATTENTION ∧
    StablelmMapper.map_to_actions cfg "model.layers.3.self_attn.q_proj.weight" =
      some { tensor_name := "model.layers.3.self_attn.q_proj.weight"
             target_name := "params.lm.transformer.x_layers_3.self_attention.q.w"
             quantize_axis := some [0]
             quantize_bits := some cfg.attention_quant_bits
             pack_dim := 0
             tensor_value := none } :=
  ⟨by decide, rfl⟩

/-- Claim C10: for every configuration and every name the classifier labels
NONE that ends in ".weight", both mappers do return an action, and it has
`quantize_axis = [0]` and `quantize_bits = None`. -/
theorem claim_C10 (cfg : MapperConfig) (layer_name : String)
    (hr : LayerType.get_layer_type layer_name = LayerType.NONE)
    (hw : py_ends_with layer_name ".weight" = true) :
    (StablelmMapper.map_to_actions cfg layer_name).map
        (fun a => (a.quantize_axis, a.quantize_bits)) = some (some [0], none) ∧
    (PhiMapper.map_to_actions cfg layer_name).map
        (fun a => (a.quantize_axis, a.quantize_bits)) = some (some [0], none) := by
  exact ⟨by simp [StablelmMapper.map_to_actions, hr, hw],
         by simp [PhiMapper.map_to_actions, hr, hw]⟩

/-- Witness for C10 at "bar.weight". -/
theorem claim_C10_witness :
    LayerType.get_layer_type "bar.weight" = LayerType.NONE ∧
    py_ends_with "bar.weight" ".weight" = true ∧
    ((StablelmMapper.map_to_actions ⟨true, 4, 5, 6⟩ "bar.weight").map
        (fun a => (a.quantize_axis, a.quantize_bits)) = some (some [0], none) ∧
     (PhiMapper.map_to_actions ⟨true, 4, 5, 6⟩ "bar.weight").map
        (fun a => (a.quantize_axis, a.quantize_bits)) = some (some [0], none)) :=
  ⟨by decide, by decide,
    claim_C10 ⟨true, 4, 5, 6⟩ "bar.weight" (by decide) (by decide)⟩

/-- Claim C4, counterexample: a stored 3-D tensor with supported dtype F32
and a consistent byte range does not materialize to an array of its own shape
— `t()` rejects tensors with more than two dimensions, so the pipeline
raises instead of returning. -/
theorem claim_C4_counterexample :
    DTYPE_MAP "F32" = some "float32" ∧
    (32 : Nat) - 0 = dtype_size "float32" * ([2, 2, 2] : List Nat).prod ∧
    read_tensor_as_numpy { dtype := "F32", shape := [2, 2, 2], data_offsets := (0, 32) } =
      .error "t() expects a tensor with <= 2 dimensions" :=
  ⟨by decide, by decide, rfl⟩

/-- Claim C4, amended: for every tensor stored with a supported dtype and a
byte range holding exactly `element_size * prod(shape)` bytes, the
materializer returns an array of shape `reverse(S)` when `S` is 2-D and of
shape `S` when `S` is 0-D or 1-D, always with element type float32; when `S`
has three or more dimensions materialization fails (torch `t()` expects at
most two dimensions). -/
theorem claim_C4_amended (info : TensorInfo) (dt : String)
    (hd : DTYPE_MAP info.dtype = some dt)
    (hb : info.data_offsets.2 - info.data_offsets.1 = dtype_size dt * info.shape.prod) :
    read_tensor_as_numpy info =
      if info.shape.length ≤ 2 then
        .ok { shape := if info.shape.length = 2 then info.shape.reverse else info.shape
              dtype := "float32" }
      else .error "t() expects a tensor with <= 2 dimensions" := by
  have hsz : 0 < dtype_size dt := dtype_size_pos hd
  have hmod : dtype_size dt * info.shape.prod % dtype_size dt = 0 := Nat.mul_mod_right _ _
  have hdiv : dtype_size dt * info.shape.prod / dtype_size dt = info.shape.prod :=
    Nat.mul_div_cancel_left _ hsz
  simp only [read_tensor_as_numpy, hd, hb, torch_frombuffer, hmod, reduceIte]
  simp only [torch_reshape, List.prod_cons, List.prod_nil, mul_one, hdiv, reduceIte]
  simp only [torch_float, torch_t]
  by_cases hlen : info.shape.length ≤ 2
  · rw [if_pos hlen, if_pos hlen]
    by_cases h2 : info.shape.length = 2
    · rw [if_pos h2]
    · rw [if_neg h2, reverse_eq_self_of_short (by omega)]
  · rw [if_neg hlen, if_neg hlen]

/-- Witness for the amended C4 at a 2-D F16 tensor of shape [2, 3] stored in
12 bytes: the materialized array has shape [3, 2] and dtype float32. -/
theorem claim_C4_amended_witness :
    DTYPE_MAP "F16" = some "float16" ∧
    ((12 : Nat) - 0 = dtype_size "float16" * ([2, 3] : List Nat).prod) ∧
    read_tensor_as_numpy { dtype := "F16", shape := [2, 3], data_offsets := (0, 12) } =
      (if ([2, 3] : List Nat).length ≤ 2 then
        Except.ok
          { shape := if ([2, 3] : List Nat).length = 2 then ([2, 3] : List Nat).reverse
                     else [2, 3]
            dtype := "float32" }
      else Except.error "t() expects a tensor with <= 2 dimensions") :=
  ⟨by decide, by decide,
    claim_C4_amended { dtype := "F16", shape := [2, 3], data_offsets := (0, 12) } "float16"
      (by decide) (by decide)⟩

/-- Claim C5: for every mapper and container whose kept tensors all
materialize, `load_to_actions` succeeds and returns as many actions as there
are metadata keys, minus one for the reserved "__metadata__" key (present,
keys unique), minus the number of remaining names the mapper drops. -/
theorem claim_C5 (m : String → Option QuantizationAction)
    (entries : List (String × TensorInfo))
    (hmeta : "__metadata__" ∈ entries.map Prod.fst)
    (hnodup : (entries.map Prod.fst).Nodup)
    (hread : ∀ e ∈ entries, e.1 ≠ "__metadata__" → (m e.1).isSome = true →
      is_ok (read_tensor_as_numpy e.2) = true) :
    ∃ acts, load_to_actions_from m entries = .ok acts ∧
      acts.length = entries.length - 1 -
        (entries.filter fun e => (e.1 != "__metadata__") && (m e.1).isNone).length := by
  obtain ⟨acts, hacts, hlen⟩ := load_to_actions_from_count m entries hread
  refine ⟨acts, hacts, ?_⟩
  have hpart := length_partition m entries
  have hone := filter_meta_length entries hmeta hnodup
  omega

/-- Container used by the C5 witness: the reserved key plus two tensors. -/
def c5_entries : List (String × TensorInfo) :=
  [("__metadata__", { dtype := "F32", shape := [], data_offsets := (0, 0) }),
   ("model.norm.weight", { dtype := "F32", shape := [4], data_offsets := (0, 16) }),
   ("model.layers.0.self_attn.q_proj.weight",
     { dtype := "F16", shape := [2, 3], data_offsets := (16, 28) })]

/-- Mapper used by the C5 witness. -/
def c5_mapper : String → Option QuantizationAction :=
  StablelmMapper.map_to_actions ⟨true, 8, 4, 8⟩

/-- Witness for C5 on a three-entry container under the StableLM mapper:
both non-reserved tensors are kept, so two actions come back. -/
theorem claim_C5_witness :
    ("__metadata__" ∈ c5_entries.map Prod.fst) ∧
    (c5_entries.map Prod.fst).Nodup ∧
    (∃ acts, load_to_actions_from c5_mapper c5_entries = .ok acts ∧
      acts.length = c5_entries.length - 1 -
        (c5_entries.filter fun e =>
          (e.1 != "__metadata__") && (c5_mapper e.1).isNone).length) :=
  ⟨by decide, by decide,
    claim_C5 c5_mapper c5_entries (by decide) (by decide) (by decide)⟩

/-- Claim C9: constructing the loader with an unrecognized model-family
string fails with the config error, whatever the state of the checkpoint
file — even a missing path or a malformed header is never reached, because
the family dispatch precedes the path-existence check and the header read. -/
theorem claim_C9 (ckpt_path : String) (cfg : MapperConfig) (special_model : String)
    (file : CkptFile)
    (hm : special_model ∉ (["STABLELM_4E1T_3B", "PHI_2"] : List String)) :
    loader_init ckpt_path cfg special_model file =
      .error (.config_error ("Unknown special model: " ++ special_model)) := by
  have h1 : special_model ≠ "STABLELM_4E1T_3B" := fun h => hm (by simp [h])
  have h2 : special_model ≠ "PHI_2" := fun h => hm (by simp [h])
  simp [loader_init, h1, h2]

/-- Witness for C9: the unknown family "GEMMA_2B" fails construction even on
an existing checkpoint with a well-formed header. -/
theorem claim_C9_witness :
    ("GEMMA_2B" ∉ (["STABLELM_4E1T_3B", "PHI_2"] : List String)) ∧
    loader_init "model.safetensors" ⟨true, 8, 8, 8⟩ "GEMMA_2B"
        { path_exists := true, parsed_header := some [] } =
      .error (.config_error ("Unknown special model: " ++ "GEMMA_2B")) :=
  ⟨by decide,
    claim_C9 "model.safetensors" ⟨true, 8, 8, 8⟩ "GEMMA_2B"
      { path_exists := true, parsed_header := some [] } (by decide)⟩

end SafetensorsConverter
